import Mathlib

/-!
Verification of the SimCerner clinical early-warning scoring and alerting
engine (NEWS2 calculator, risk classifier, trend analyzer, alert engine).

The definitions below are a shallow embedding of the TypeScript source:
`newsCalculator.ts` (calculateNEWS2, calculateSubScore, getClinicalRisk,
getEscalationLevel), the threshold tables of `types/iview.ts`
(NEWS2_THRESHOLDS, AVPU_NUMERIC_MAP, CLINICAL_RISK_THRESHOLDS),
`alertEngine.ts` (checkVitals, checkNEWSScore, acknowledgeAlert,
clearAlerts and the module-level ledger, modelled as explicit state),
and the trend computation of `useNewsScore.ts`.

JS numbers are modelled as rationals; the `-Infinity`/`Infinity` sentinel
bounds of threshold bands are modelled as `Option ℚ` with `none` meaning
unbounded (`value >= -Infinity` is always true for finite values).
JS number-to-string interpolation in alert messages is modelled with
`toString` on ℚ; no claim depends on the exact numeral rendering.
-/

namespace SimCerner

/-- AVPU / numeric or string observed value of one sub-score
(`value: number | string` in the source). -/
inductive SubValue where
  | num (q : ℚ)
  | str (s : String)
deriving DecidableEq

/-- One scored physiological parameter (`NEWS2SubScore`). -/
structure NEWS2SubScore where
  parameter : String
  value : SubValue
  score : ℕ
deriving DecidableEq

/-- The four-level clinical risk (`ClinicalRisk` string union in the source). -/
inductive ClinicalRisk where
  | low
  | lowMedium
  | medium
  | high
deriving DecidableEq

/-- Aggregate scoring result (`NEWS2Result`). -/
structure NEWS2Result where
  totalScore : ℕ
  subScores : List NEWS2SubScore
  clinicalRisk : ClinicalRisk
  escalationLevel : ℕ
deriving DecidableEq

/-- One vital-sign observation (`VitalSign` in `types/patient.ts`); all
clinical fields are independently optional.  `avpu` is kept as a raw
string as at runtime (the loader casts arbitrary strings into it). -/
structure VitalSign where
  datetime : String
  temp : Option ℚ := none
  hr : Option ℚ := none
  rr : Option ℚ := none
  bp_sys : Option ℚ := none
  spo2 : Option ℚ := none
  avpu : Option String := none
  supplementalO2 : Option Bool := none
deriving DecidableEq

/-- `ScoreThresholdBand`: inclusive `min`/`max` bounds with `none` for the
`-Infinity` / `Infinity` sentinels, mapped to a sub-score. -/
structure Band where
  min : Option ℚ
  max : Option ℚ
  score : ℕ
deriving DecidableEq

/-- `ParameterThresholds`: parameter key, label and ordered band list. -/
structure ParameterThresholds where
  parameter : String
  label : String
  bands : List Band
deriving DecidableEq

/-- `value >= b.min` where `b.min = -Infinity` is `none`. -/
def lowOk (v : ℚ) : Option ℚ → Bool
  | none => true
  | some a => decide (a ≤ v)

/-- `value <= b.max` where `b.max = Infinity` is `none`. -/
def highOk (v : ℚ) : Option ℚ → Bool
  | none => true
  | some a => decide (v ≤ a)

/-- Band membership: `value >= b.min && value <= b.max` in the source. -/
def bandMem (v : ℚ) (b : Band) : Bool :=
  lowOk v b.min && highOk v b.max

/-- `NEWS2_THRESHOLDS.respiratoryRate`. -/
def rrThresholds : ParameterThresholds :=
  { parameter := "rr", label := "Respiratory Rate",
    bands := [⟨none, some 8, 3⟩, ⟨some 9, some 11, 1⟩, ⟨some 12, some 20, 0⟩,
              ⟨some 21, some 24, 2⟩, ⟨some 25, none, 3⟩] }

/-- `NEWS2_THRESHOLDS.spo2Scale1`. -/
def spo2Scale1Thresholds : ParameterThresholds :=
  { parameter := "spo2", label := "SpO2 Scale 1",
    bands := [⟨none, some 91, 3⟩, ⟨some 92, some 93, 2⟩,
              ⟨some 94, some 95, 1⟩, ⟨some 96, none, 0⟩] }

/-- `NEWS2_THRESHOLDS.spo2Scale2OnO2`. -/
def spo2Scale2OnO2Thresholds : ParameterThresholds :=
  { parameter := "spo2", label := "SpO2 Scale 2 (on supplemental O2)",
    bands := [⟨none, some 83, 3⟩, ⟨some 84, some 85, 2⟩, ⟨some 86, some 87, 1⟩,
              ⟨some 88, some 92, 0⟩, ⟨some 93, none, 0⟩] }

/-- `NEWS2_THRESHOLDS.spo2Scale2OnAir`. -/
def spo2Scale2OnAirThresholds : ParameterThresholds :=
  { parameter := "spo2", label := "SpO2 Scale 2 (on room air)",
    bands := [⟨none, some 83, 3⟩, ⟨some 84, some 85, 2⟩, ⟨some 86, some 87, 1⟩,
              ⟨some 88, some 92, 0⟩, ⟨some 93, some 94, 1⟩,
              ⟨some 95, some 96, 2⟩, ⟨some 97, none, 3⟩] }

/-- `NEWS2_THRESHOLDS.supplementalO2`. -/
def supplementalO2Thresholds : ParameterThresholds :=
  { parameter := "supplementalO2", label := "Supplemental Oxygen",
    bands := [⟨some 0, some 0, 0⟩, ⟨some 1, some 1, 2⟩] }

/-- `NEWS2_THRESHOLDS.temperature` (bounds in °C, one decimal place). -/
def temperatureThresholds : ParameterThresholds :=
  { parameter := "temp", label := "Temperature",
    bands := [⟨none, some 35, 3⟩, ⟨some (351/10), some 36, 1⟩,
              ⟨some (361/10), some 38, 0⟩, ⟨some (381/10), some 39, 1⟩,
              ⟨some (391/10), none, 2⟩] }

/-- `NEWS2_THRESHOLDS.systolicBP`. -/
def systolicBPThresholds : ParameterThresholds :=
  { parameter := "bp_sys", label := "Systolic Blood Pressure",
    bands := [⟨none, some 90, 3⟩, ⟨some 91, some 100, 2⟩, ⟨some 101, some 110, 1⟩,
              ⟨some 111, some 219, 0⟩, ⟨some 220, none, 3⟩] }

/-- `NEWS2_THRESHOLDS.heartRate`. -/
def heartRateThresholds : ParameterThresholds :=
  { parameter := "hr", label := "Heart Rate",
    bands := [⟨none, some 40, 3⟩, ⟨some 41, some 50, 1⟩, ⟨some 51, some 90, 0⟩,
              ⟨some 91, some 110, 1⟩, ⟨some 111, some 130, 2⟩, ⟨some 131, none, 3⟩] }

/-- `NEWS2_THRESHOLDS.consciousness`. -/
def consciousnessThresholds : ParameterThresholds :=
  { parameter := "avpu", label := "Consciousness (AVPU)",
    bands := [⟨some 0, some 0, 0⟩, ⟨some 1, some 3, 3⟩] }

/-- The `NEWS2_THRESHOLDS` record: key lookup returning the parameter's
threshold configuration, `none` for unknown keys. -/
def NEWS2_THRESHOLDS (key : String) : Option ParameterThresholds :=
  if key = "respiratoryRate" then some rrThresholds
  else if key = "spo2Scale1" then some spo2Scale1Thresholds
  else if key = "spo2Scale2OnO2" then some spo2Scale2OnO2Thresholds
  else if key = "spo2Scale2OnAir" then some spo2Scale2OnAirThresholds
  else if key = "supplementalO2" then some supplementalO2Thresholds
  else if key = "temperature" then some temperatureThresholds
  else if key = "systolicBP" then some systolicBPThresholds
  else if key = "heartRate" then some heartRateThresholds
  else if key = "consciousness" then some consciousnessThresholds
  else none

/-- `AVPU_NUMERIC_MAP`: A→0, C→1, V→2, P→3, U→3; `none` for any other
string (the source record lookup yields `undefined`). -/
def AVPU_NUMERIC_MAP (a : String) : Option ℚ :=
  if a = "A" then some 0
  else if a = "C" then some 1
  else if a = "V" then some 2
  else if a = "P" then some 3
  else if a = "U" then some 3
  else none

/-- `CLINICAL_RISK_THRESHOLDS.high`. -/
def riskThresholdHigh : ℚ := 7

/-- `CLINICAL_RISK_THRESHOLDS.medium`. -/
def riskThresholdMedium : ℚ := 5

/-- `calculateSubScore`: look up the first band containing the value;
0 for an unknown parameter key or a value outside every band
(`band?.score ?? 0`). -/
def calculateSubScore (parameter : String) (value : ℚ) : ℕ :=
  match NEWS2_THRESHOLDS parameter with
  | none => 0
  | some t =>
    match t.bands.find? (fun b => bandMem value b) with
    | none => 0
    | some b => b.score

/-- `getClinicalRisk`: High at ≥ 7, Medium at ≥ 5, else Low-Medium on a
red sub-score, else Low. -/
def getClinicalRisk (totalScore : ℚ) (hasRedScore : Bool) : ClinicalRisk :=
  if riskThresholdHigh ≤ totalScore then .high
  else if riskThresholdMedium ≤ totalScore then .medium
  else if hasRedScore then .lowMedium
  else .low

/-- `getEscalationLevel`: Low→0, Low-Medium→1, Medium→2, High→3. -/
def getEscalationLevel : ClinicalRisk → ℕ
  | .low => 0
  | .lowMedium => 1
  | .medium => 2
  | .high => 3

/-- `calculateNEWS2`: one sub-score per present field in source order
(RR, SpO2 on Scale 1, supplemental O2 — pushed unconditionally, with a
falsy absent flag read as `false` — temperature, systolic BP, heart
rate, AVPU with unknown labels mapped to numeric 0), then the total,
red-score flag, risk and escalation level. -/
def calculateNEWS2 (vital : VitalSign) : NEWS2Result :=
  let subScores : List NEWS2SubScore :=
    (match vital.rr with
     | some v => [⟨"Respiratory Rate", .num v, calculateSubScore "respiratoryRate" v⟩]
     | none => []) ++
    (match vital.spo2 with
     | some v => [⟨"SpO2", .num v, calculateSubScore "spo2Scale1" v⟩]
     | none => []) ++
    [⟨"Supplemental O2",
      .str (if vital.supplementalO2.getD false then "Yes" else "No"),
      calculateSubScore "supplementalO2"
        (if vital.supplementalO2.getD false then 1 else 0)⟩] ++
    (match vital.temp with
     | some v => [⟨"Temperature", .num v, calculateSubScore "temperature" v⟩]
     | none => []) ++
    (match vital.bp_sys with
     | some v => [⟨"Systolic BP", .num v, calculateSubScore "systolicBP" v⟩]
     | none => []) ++
    (match vital.hr with
     | some v => [⟨"Heart Rate", .num v, calculateSubScore "heartRate" v⟩]
     | none => []) ++
    (match vital.avpu with
     | some a => [⟨"Consciousness", .str a,
                   calculateSubScore "consciousness" ((AVPU_NUMERIC_MAP a).getD 0)⟩]
     | none => [])
  let totalScore : ℕ := (subScores.map (·.score)).sum
  let hasRedScore := subScores.any (fun s => s.score == 3)
  let clinicalRisk := getClinicalRisk (totalScore : ℚ) hasRedScore
  { totalScore := totalScore, subScores := subScores,
    clinicalRisk := clinicalRisk, escalationLevel := getEscalationLevel clinicalRisk }

/-- Trend direction of `useNewsScore`. -/
inductive NewsTrend where
  | improving
  | stable
  | worsening
deriving DecidableEq

/-- The trend computation of `useNewsScore`: score every observation
(newest first), compare the two most recent totals; `stable` with fewer
than two scored observations. -/
def newsTrend (vitals : List VitalSign) : NewsTrend :=
  match vitals.map calculateNEWS2 with
  | s0 :: s1 :: _ =>
    let delta : ℤ := (s0.totalScore : ℤ) - (s1.totalScore : ℤ)
    if 0 < delta then .worsening
    else if delta < 0 then .improving
    else .stable
  | _ => .stable

/-- Alert severity (`AlertSeverity`). -/
inductive AlertSeverity where
  | info
  | warning
  | critical
deriving DecidableEq

/-- Alert category (`AlertType`). -/
inductive AlertType where
  | vital_out_of_range
  | news_score_elevated
  | news_score_critical
  | deterioration_trend
  | overdue_observation
deriving DecidableEq

/-- One clinical alert record (`Alert`). -/
structure Alert where
  id : String
  type : AlertType
  severity : AlertSeverity
  message : String
  timestamp : String
  acknowledged : Bool
  patientMrn : String
deriving DecidableEq

/-- Per-parameter absolute alert cutoffs (`VITAL_ALERT_THRESHOLDS` entry). -/
structure VitalThreshold where
  warningLow : Option ℚ
  warningHigh : Option ℚ
  criticalLow : Option ℚ
  criticalHigh : Option ℚ
  label : String
deriving DecidableEq

/-- `VITAL_ALERT_THRESHOLDS`, in object-entry (insertion) order. -/
def VITAL_ALERT_THRESHOLDS : List (String × VitalThreshold) :=
  [("hr", ⟨some 50, some 110, some 40, some 130, "Heart Rate"⟩),
   ("rr", ⟨some 11, some 21, some 8, some 25, "Respiratory Rate"⟩),
   ("bp_sys", ⟨some 100, some 180, some 90, some 220, "Systolic BP"⟩),
   ("spo2", ⟨some 94, none, some 91, none, "SpO2"⟩),
   ("temp", ⟨some (71/2), some (77/2), some 35, some (391/10), "Temperature"⟩)]

/-- `vital[key]` field access used by the `checkVitals` loop. -/
def vitalValue (v : VitalSign) : String → Option ℚ
  | "hr" => v.hr
  | "rr" => v.rr
  | "bp_sys" => v.bp_sys
  | "spo2" => v.spo2
  | "temp" => v.temp
  | _ => none

/-- `(criticalLow != null && value <= criticalLow) ||
(criticalHigh != null && value >= criticalHigh)`. -/
def critHit (t : VitalThreshold) (v : ℚ) : Bool :=
  (match t.criticalLow with | none => false | some a => decide (v ≤ a)) ||
  (match t.criticalHigh with | none => false | some a => decide (a ≤ v))

/-- `(warningLow != null && value <= warningLow) ||
(warningHigh != null && value >= warningHigh)`. -/
def warnHit (t : VitalThreshold) (v : ℚ) : Bool :=
  (match t.warningLow with | none => false | some a => decide (v ≤ a)) ||
  (match t.warningHigh with | none => false | some a => decide (a ≤ v))

/-- Decimal digit to character, for rendering the id counter. -/
def digitChar : ℕ → Char
  | 0 => '0'
  | 1 => '1'
  | 2 => '2'
  | 3 => '3'
  | 4 => '4'
  | 5 => '5'
  | 6 => '6'
  | 7 => '7'
  | 8 => '8'
  | _ => '9'

/-- Decimal rendering of a natural number (`String(counter)` in JS),
as a character list, most significant digit first. -/
def natChars (n : ℕ) : List Char :=
  if n = 0 then ['0'] else ((Nat.digits 10 n).map digitChar).reverse

/-- `padStart(4, '0')` on a character list. -/
def padChars (l : List Char) : List Char :=
  List.replicate (4 - l.length) '0' ++ l

/-- `generateAlertId` rendering: the id issued when the counter has been
incremented to `n` is `"ALT-" + String(n).padStart(4, '0')`. -/
def mkId (n : ℕ) : String :=
  String.mk ('A' :: 'L' :: 'T' :: '-' :: padChars (natChars n))

/-- The module-level alert ledger and id counter of `alertEngine.ts`,
made an explicit state. -/
structure AlertState where
  alerts : List Alert
  counter : ℕ
deriving DecidableEq

/-- The initial / post-`clearAlerts` state: empty ledger, counter 0. -/
def clearedState : AlertState := ⟨[], 0⟩

/-- The body of the `checkVitals` loop for one present parameter value:
the critical cutoffs are checked first and `continue` skips the warning
check, so at most one alert is pushed; the counter advances exactly when
an alert is pushed. -/
def checkOneVital (c : ℕ) (now mrn : String) (t : VitalThreshold) (v : ℚ) :
    List Alert × ℕ :=
  if critHit t v then
    ([{ id := mkId (c + 1), type := .vital_out_of_range, severity := .critical,
        message := "CRITICAL: " ++ t.label ++ " = " ++ toString v ++ " (outside safe range)",
        timestamp := now, acknowledged := false, patientMrn := mrn }], c + 1)
  else if warnHit t v then
    ([{ id := mkId (c + 1), type := .vital_out_of_range, severity := .warning,
        message := "WARNING: " ++ t.label ++ " = " ++ toString v ++ " (approaching limits)",
        timestamp := now, acknowledged := false, patientMrn := mrn }], c + 1)
  else ([], c)

/-- The `checkVitals` loop over the threshold-table entries, skipping
absent fields and accumulating new alerts. -/
def checkVitalsLoop (now mrn : String) (vital : VitalSign) :
    List (String × VitalThreshold) → List Alert → ℕ → List Alert × ℕ
  | [], acc, c => (acc, c)
  | (k, t) :: rest, acc, c =>
    match vitalValue vital k with
    | none => checkVitalsLoop now mrn vital rest acc c
    | some v =>
      let r := checkOneVital c now mrn t v
      checkVitalsLoop now mrn vital rest (acc ++ r.1) r.2

/-- `checkVitals(patient, vital)`: evaluate the five monitored parameters
and append the new alerts to the ledger.  `now` stands for
`new Date().toISOString()` and `mrn` for `patient.mrn`. -/
def checkVitals (st : AlertState) (now mrn : String) (vital : VitalSign) :
    List Alert × AlertState :=
  let r := checkVitalsLoop now mrn vital VITAL_ALERT_THRESHOLDS [] st.counter
  (r.1, ⟨st.alerts ++ r.1, r.2⟩)

/-- Risk label, the `ClinicalRisk` string union value of the source. -/
def riskLabel : ClinicalRisk → String
  | .low => "Low"
  | .lowMedium => "Low-Medium"
  | .medium => "Medium"
  | .high => "High"

/-- The `riskMap` of `checkNEWSScore`: severity and type of the
score-threshold alert, `none` for Low risk. -/
def riskAlertConfig : ClinicalRisk → Option (AlertSeverity × AlertType)
  | .low => none
  | .lowMedium => some (.info, .news_score_elevated)
  | .medium => some (.warning, .news_score_elevated)
  | .high => some (.critical, .news_score_critical)

/-- `checkNEWSScore(score, patientMrn)`: one score-threshold alert per the
risk map, plus a red-parameter warning when some sub-score is 3 and the
risk is not already High; new alerts are appended to the ledger. -/
def checkNEWSScore (st : AlertState) (now : String) (score : NEWS2Result)
    (mrn : String) : List Alert × AlertState :=
  let first : List Alert × ℕ :=
    match riskAlertConfig score.clinicalRisk with
    | some cfg =>
      ([{ id := mkId (st.counter + 1), type := cfg.2, severity := cfg.1,
          message := "NEWS2 Score " ++ toString score.totalScore ++ " — " ++
            riskLabel score.clinicalRisk ++ " risk. Escalation level " ++
            toString score.escalationLevel ++ ".",
          timestamp := now, acknowledged := false, patientMrn := mrn }],
       st.counter + 1)
    | none => ([], st.counter)
  let redParams := score.subScores.filter (fun s => s.score == 3)
  let second : List Alert × ℕ :=
    if 0 < redParams.length ∧ score.clinicalRisk ≠ .high then
      ([{ id := mkId (first.2 + 1), type := .news_score_elevated, severity := .warning,
          message := "RED score in: " ++
            String.intercalate ", " (redParams.map (·.parameter)) ++
            ". Requires increased monitoring.",
          timestamp := now, acknowledged := false, patientMrn := mrn }],
       first.2 + 1)
    else ([], first.2)
  let newAlerts := first.1 ++ second.1
  (newAlerts, ⟨st.alerts ++ newAlerts, second.2⟩)

/-- `acknowledgeAlert(alertId)`: flip the matching alert's flag to true. -/
def acknowledgeAlert (st : AlertState) (alertId : String) : AlertState :=
  ⟨st.alerts.map (fun a => if a.id == alertId then { a with acknowledged := true } else a),
   st.counter⟩

/-- `clearAlerts()`: empty the ledger and reset the counter. -/
def clearAlerts (_ : AlertState) : AlertState := clearedState

/-- One call against the alert engine's mutable state. -/
inductive AlertOp where
  | vitals (now mrn : String) (v : VitalSign)
  | news (now : String) (r : NEWS2Result) (mrn : String)
  | ack (id : String)
  | clear

/-- Apply one engine call to the ledger state. -/
def stepOp (st : AlertState) : AlertOp → AlertState
  | .vitals now mrn v => (checkVitals st now mrn v).2
  | .news now r mrn => (checkNEWSScore st now r mrn).2
  | .ack id => acknowledgeAlert st id
  | .clear => clearAlerts st

/-- Run a sequence of engine calls. -/
def runOps (st : AlertState) (ops : List AlertOp) : AlertState :=
  ops.foldl stepOp st

/-- The ids currently in the ledger, in append order. -/
def ledgerIds (st : AlertState) : List String :=
  st.alerts.map (·.id)

/-- Inverse of `digitChar` on decimal digits, used to invert the id
rendering. -/
def charDigit : Char → ℕ
  | '0' => 0
  | '1' => 1
  | '2' => 2
  | '3' => 3
  | '4' => 4
  | '5' => 5
  | '6' => 6
  | '7' => 7
  | '8' => 8
  | _ => 9

lemma charDigit_digitChar (d : ℕ) (hd : d < 10) : charDigit (digitChar d) = d := by
  interval_cases d <;> rfl

lemma digitChar_ne_zero (d : ℕ) (hd : d < 10) (h0 : d ≠ 0) : digitChar d ≠ '0' := by
  interval_cases d
  · exact absurd rfl h0
  all_goals decide

lemma map_charDigit_digitChar (l : List ℕ) (hl : ∀ d ∈ l, d < 10) :
    (l.map digitChar).map charDigit = l := by
  induction l with
  | nil => rfl
  | cons a t ih =>
    simp only [List.map_cons, List.cons.injEq]
    exact ⟨charDigit_digitChar a (hl a (by simp)),
           ih (fun d hd => hl d (by simp [hd]))⟩

lemma natChars_inj : Function.Injective natChars := by
  intro m n h
  unfold natChars at h
  by_cases hm : m = 0 <;> by_cases hn : n = 0
  · simp [hm, hn]
  · exfalso
    rw [if_pos hm, if_neg hn] at h
    have h' := congrArg List.head? h
    have hne : Nat.digits 10 n ≠ [] := Nat.digits_ne_nil_iff_ne_zero.mpr hn
    rw [List.head?_reverse, List.getLast?_map,
        List.getLast?_eq_getLast _ hne] at h'
    simp only [List.head?_cons, Option.map_some'] at h'
    have hlast := Nat.getLast_digit_ne_zero 10 hn
    have hdlt : (Nat.digits 10 n).getLast hne < 10 :=
      Nat.digits_lt_base (by norm_num) (List.getLast_mem hne)
    exact digitChar_ne_zero _ hdlt hlast (Option.some.inj h').symm
  · exfalso
    rw [if_neg hm, if_pos hn] at h
    have h' := congrArg List.head? h
    have hne : Nat.digits 10 m ≠ [] := Nat.digits_ne_nil_iff_ne_zero.mpr hm
    rw [List.head?_reverse, List.getLast?_map,
        List.getLast?_eq_getLast _ hne] at h'
    simp only [List.head?_cons, Option.map_some'] at h'
    have hlast := Nat.getLast_digit_ne_zero 10 hm
    have hdlt : (Nat.digits 10 m).getLast hne < 10 :=
      Nat.digits_lt_base (by norm_num) (List.getLast_mem hne)
    exact digitChar_ne_zero _ hdlt hlast (Option.some.inj h')
  · rw [if_neg hm, if_neg hn] at h
    have h1 : (Nat.digits 10 m).map digitChar = (Nat.digits 10 n).map digitChar :=
      List.reverse_injective h
    have h2 : Nat.digits 10 m = Nat.digits 10 n := by
      have := congrArg (List.map charDigit) h1
      rwa [map_charDigit_digitChar _ (fun d hd => Nat.digits_lt_base (by norm_num) hd),
           map_charDigit_digitChar _ (fun d hd => Nat.digits_lt_base (by norm_num) hd)]
        at this
    exact Nat.digits.injective 10 h2

lemma dropWhile_replicate_zero (k : ℕ) (l : List Char) :
    ((List.replicate k '0' ++ l).dropWhile (fun c => c == '0')) =
      l.dropWhile (fun c => c == '0') := by
  induction k with
  | zero => simp
  | succ k ih => simp [List.replicate_succ, List.dropWhile_cons, ih]

lemma natChars_head_ne_zero {n : ℕ} (hn : n ≠ 0) :
    ∃ c t, natChars n = c :: t ∧ (c == '0') = false := by
  have hne : Nat.digits 10 n ≠ [] := Nat.digits_ne_nil_iff_ne_zero.mpr hn
  have hrne : (((Nat.digits 10 n).map digitChar).reverse) ≠ [] := by
    simp [hne]
  obtain ⟨c, t, e⟩ := List.exists_cons_of_ne_nil hrne
  refine ⟨c, t, by rw [natChars, if_neg hn]; exact e, ?_⟩
  have h' := congrArg List.head? e
  rw [List.head?_reverse, List.getLast?_map, List.getLast?_eq_getLast _ hne] at h'
  simp only [List.head?_cons, Option.map_some'] at h'
  have hlast := Nat.getLast_digit_ne_zero 10 hn
  have hdlt : (Nat.digits 10 n).getLast hne < 10 :=
    Nat.digits_lt_base (by norm_num) (List.getLast_mem hne)
  have hc : digitChar ((Nat.digits 10 n).getLast hne) = c := Option.some.inj h'
  have : c ≠ '0' := hc ▸ digitChar_ne_zero _ hdlt hlast
  simpa using this

lemma dropWhile_natChars_pos {n : ℕ} (hn : n ≠ 0) :
    (natChars n).dropWhile (fun c => c == '0') = natChars n := by
  obtain ⟨c, t, e, hc⟩ := natChars_head_ne_zero hn
  rw [e, List.dropWhile_cons, hc]
  simp

lemma mkId_inj {m n : ℕ} (hm : m ≠ 0) (hn : n ≠ 0) (h : mkId m = mkId n) : m = n := by
  unfold mkId at h
  have h1 : padChars (natChars m) = padChars (natChars n) := by
    have := congrArg String.data h
    simpa using this
  have h2 := congrArg (List.dropWhile (fun c => c == '0')) h1
  rw [padChars, padChars, dropWhile_replicate_zero, dropWhile_replicate_zero,
      dropWhile_natChars_pos hm, dropWhile_natChars_pos hn] at h2
  exact natChars_inj h2

lemma nodup_mkId_range (n : ℕ) : ((List.range' 1 n).map mkId).Nodup := by
  refine List.Nodup.map_on ?_ (List.nodup_range' 1 n)
  intro x hx y hy hxy
  obtain ⟨i, _, hxe⟩ := List.mem_range'.1 hx
  obtain ⟨j, _, hye⟩ := List.mem_range'.1 hy
  exact mkId_inj (by omega) (by omega) hxy

lemma natChars_one : natChars 1 = ['1'] := by
  rw [natChars, if_neg (by norm_num),
      Nat.digits_def' (by norm_num : (1:ℕ) < 10) (by norm_num : 0 < 1)]
  norm_num
  rfl

lemma mkId_one : mkId 1 = "ALT-0001" := by
  rw [mkId, natChars_one]
  rfl

lemma checkOneVital_cases (c : ℕ) (now mrn : String) (t : VitalThreshold) (v : ℚ) :
    ((checkOneVital c now mrn t v).1 = [] ∧ (checkOneVital c now mrn t v).2 = c) ∨
    (∃ a, (checkOneVital c now mrn t v).1 = [a] ∧ a.id = mkId (c + 1) ∧
      a.type = AlertType.vital_out_of_range ∧ (checkOneVital c now mrn t v).2 = c + 1) := by
  unfold checkOneVital
  split_ifs <;> simp

lemma checkVitalsLoop_spec (now mrn : String) (vital : VitalSign) :
    ∀ (keys : List (String × VitalThreshold)) (acc : List Alert) (c : ℕ),
      ∃ new c',
        checkVitalsLoop now mrn vital keys acc c = (acc ++ new, c') ∧
        c' = c + new.length ∧
        new.map (·.id) = (List.range' (c + 1) new.length).map mkId ∧
        new.length ≤ keys.length ∧
        ∀ a ∈ new, a.type = AlertType.vital_out_of_range := by
  intro keys
  induction keys with
  | nil =>
    intro acc c
    exact ⟨[], c, by simp [checkVitalsLoop], by simp, by simp, by simp, by simp⟩
  | cons kt rest ih =>
    intro acc c
    obtain ⟨k, t⟩ := kt
    cases hv : vitalValue vital k with
    | none =>
      obtain ⟨new, c', h1, h2, h3, h4, h5⟩ := ih acc c
      refine ⟨new, c', ?_, h2, h3, ?_, h5⟩
      · simp only [checkVitalsLoop, hv]
        exact h1
      · simp only [List.length_cons]
        omega
    | some v =>
      rcases checkOneVital_cases c now mrn t v with ⟨he, hc2⟩ | ⟨a, he, hid, hty, hc2⟩
      · obtain ⟨new, c', h1, h2, h3, h4, h5⟩ := ih acc c
        refine ⟨new, c', ?_, h2, h3, ?_, h5⟩
        · simp only [checkVitalsLoop, hv, he, hc2, List.append_nil]
          exact h1
        · simp only [List.length_cons]
          omega
      · obtain ⟨new, c', h1, h2, h3, h4, h5⟩ := ih (acc ++ [a]) (c + 1)
        refine ⟨a :: new, c', ?_, ?_, ?_, ?_, ?_⟩
        · simp only [checkVitalsLoop, hv, he, hc2]
          rw [h1]
          simp
        · simp only [List.length_cons]
          omega
        · rw [List.length_cons, List.range'_succ, List.map_cons, List.map_cons, hid, h3]
        · simp only [List.length_cons]
          omega
        · intro x hx
          rcases List.mem_cons.1 hx with rfl | hx'
          · exact hty
          · exact h5 x hx'

lemma checkVitals_spec (st : AlertState) (now mrn : String) (vital : VitalSign) :
    ∃ new, (checkVitals st now mrn vital).1 = new ∧
      (checkVitals st now mrn vital).2 = ⟨st.alerts ++ new, st.counter + new.length⟩ ∧
      new.map (·.id) = (List.range' (st.counter + 1) new.length).map mkId ∧
      new.length ≤ 5 ∧ ∀ a ∈ new, a.type = AlertType.vital_out_of_range := by
  obtain ⟨new, c', h1, h2, h3, h4, h5⟩ :=
    checkVitalsLoop_spec now mrn vital VITAL_ALERT_THRESHOLDS [] st.counter
  rw [List.nil_append] at h1
  refine ⟨new, ?_, ?_, h3, ?_, h5⟩
  · simp [checkVitals, h1]
  · simp [checkVitals, h1, h2]
  · simpa [VITAL_ALERT_THRESHOLDS] using h4

lemma checkNEWSScore_ids (st : AlertState) (now : String) (r : NEWS2Result)
    (mrn : String) :
    ∃ new, (checkNEWSScore st now r mrn).1 = new ∧
      (checkNEWSScore st now r mrn).2 = ⟨st.alerts ++ new, st.counter + new.length⟩ ∧
      new.map (·.id) = (List.range' (st.counter + 1) new.length).map mkId := by
  unfold checkNEWSScore
  cases hr : riskAlertConfig r.clinicalRisk with
  | none =>
    by_cases hred : 0 < (r.subScores.filter (fun s => s.score == 3)).length ∧
        r.clinicalRisk ≠ ClinicalRisk.high
    · refine ⟨_, rfl, ?_, ?_⟩ <;> simp [hred, List.range'_succ]
    · refine ⟨_, rfl, ?_, ?_⟩ <;> simp [hred]
  | some cfg =>
    by_cases hred : 0 < (r.subScores.filter (fun s => s.score == 3)).length ∧
        r.clinicalRisk ≠ ClinicalRisk.high
    · refine ⟨_, rfl, ?_, ?_⟩ <;> simp [hred, List.range'_succ]
    · refine ⟨_, rfl, ?_, ?_⟩ <;> simp [hred, List.range'_succ]

lemma stepOp_good (st : AlertState) (op : AlertOp)
    (h : ledgerIds st = (List.range' 1 st.counter).map mkId) :
    ledgerIds (stepOp st op) = (List.range' 1 (stepOp st op).counter).map mkId := by
  cases op with
  | vitals now mrn v =>
    obtain ⟨new, _, h2, h3, _, _⟩ := checkVitals_spec st now mrn v
    simp only [stepOp, h2, ledgerIds, List.map_append] at h ⊢
    rw [h, h3, ← List.map_append]
    congr 1
    simpa [Nat.add_comm] using List.range'_append_1 1 st.counter new.length
  | news now r mrn =>
    obtain ⟨new, _, h2, h3⟩ := checkNEWSScore_ids st now r mrn
    simp only [stepOp, h2, ledgerIds, List.map_append] at h ⊢
    rw [h, h3, ← List.map_append]
    congr 1
    simpa [Nat.add_comm] using List.range'_append_1 1 st.counter new.length
  | ack id =>
    have hid : ∀ a : Alert,
        (if a.id == id then { a with acknowledged := true } else a).id = a.id := by
      intro a
      split <;> rfl
    simp only [stepOp, acknowledgeAlert, ledgerIds, List.map_map] at h ⊢
    rw [← h]
    exact List.map_congr_left (fun a _ => hid a)
  | clear =>
    simp [stepOp, clearAlerts, clearedState, ledgerIds]

/-- C8: starting from the cleared state, after any sequence of engine calls
(checkVitals / checkNEWSScore appends, acknowledgements, clears) the ledger
holds exactly the ids `ALT-0001, ALT-0002, …` up to the current counter, in
issue order (hence strictly increasing in the counter and restarting at
`ALT-0001` after a clear); all ledger ids are distinct; `clearAlerts`
always yields the empty ledger with counter 0; and the first id issued
(counter value 1) renders as `"ALT-0001"`. -/
theorem alert_ledger_ids (ops : List AlertOp) :
    ledgerIds (runOps clearedState ops) =
      (List.range' 1 (runOps clearedState ops).counter).map mkId ∧
    (ledgerIds (runOps clearedState ops)).Nodup ∧
    (∀ st, stepOp st AlertOp.clear = clearedState) ∧
    mkId 1 = "ALT-0001" := by
  have main : ∀ (l : List AlertOp) (st : AlertState),
      ledgerIds st = (List.range' 1 st.counter).map mkId →
      ledgerIds (runOps st l) = (List.range' 1 (runOps st l).counter).map mkId := by
    intro l
    induction l with
    | nil => exact fun st h => h
    | cons op rest ih => exact fun st h => ih (stepOp st op) (stepOp_good st op h)
  have h1 := main ops clearedState rfl
  exact ⟨h1, h1 ▸ nodup_mkId_range _, fun st => rfl, mkId_one⟩

/-- C1: `getClinicalRisk` returns High exactly when the total is ≥ 7
(regardless of the red-score flag), Medium exactly when 5 ≤ total < 7
(regardless of the flag — a red sub-score at totals 5–6 does not escalate
to High), Low-Medium exactly when total < 5 with a red score, and Low
exactly when total < 5 without one. -/
theorem getClinicalRisk_bands (t : ℚ) (r : Bool) :
    (getClinicalRisk t r = .high ↔ 7 ≤ t) ∧
    (getClinicalRisk t r = .medium ↔ 5 ≤ t ∧ t < 7) ∧
    (getClinicalRisk t r = .lowMedium ↔ t < 5 ∧ r = true) ∧
    (getClinicalRisk t r = .low ↔ t < 5 ∧ r = false) := by
  unfold getClinicalRisk riskThresholdHigh riskThresholdMedium
  split_ifs with h1 h2 h3 <;>
    refine ⟨?_, ?_, ?_, ?_⟩ <;>
      simp_all <;> first | linarith | (intro h; linarith)

/-- C9: for a parameter key with no entry in the threshold table,
`calculateSubScore` returns 0 for every value; as a total Lean function it
cannot throw. -/
theorem calculateSubScore_unknown (key : String) (v : ℚ)
    (h : NEWS2_THRESHOLDS key = none) : calculateSubScore key v = 0 := by
  simp [calculateSubScore, h]

/-- C9 witness: the unknown key `"nonExistentParam"` (the key used by the
source test-suite) yields 0 at value 42. -/
theorem calculateSubScore_unknown_witness :
    NEWS2_THRESHOLDS "nonExistentParam" = none ∧
    calculateSubScore "nonExistentParam" 42 = 0 :=
  ⟨rfl, calculateSubScore_unknown "nonExistentParam" 42 rfl⟩

/-- C6: `checkNEWSScore` raises exactly one score-threshold alert —
severity info for Low-Medium, warning for Medium, critical for High, none
for Low — plus one additional red-parameter warning alert exactly when
some sub-score equals 3 and the risk is not High. -/
theorem checkNEWSScore_alerts (st : AlertState) (now : String) (r : NEWS2Result)
    (mrn : String) :
    (checkNEWSScore st now r mrn).1.map (fun a => (a.type, a.severity)) =
      (match r.clinicalRisk with
       | .low => []
       | .lowMedium => [(AlertType.news_score_elevated, AlertSeverity.info)]
       | .medium => [(AlertType.news_score_elevated, AlertSeverity.warning)]
       | .high => [(AlertType.news_score_critical, AlertSeverity.critical)]) ++
      (if (∃ s ∈ r.subScores, s.score = 3) ∧ r.clinicalRisk ≠ ClinicalRisk.high then
        [(AlertType.news_score_elevated, AlertSeverity.warning)]
      else []) := by
  have hlen : (0 < (r.subScores.filter (fun s => s.score == 3)).length) ↔
      (∃ s ∈ r.subScores, s.score = 3) := by
    rw [List.length_pos_iff_exists_mem]
    constructor
    · rintro ⟨a, ha⟩
      obtain ⟨h1, h2⟩ := List.mem_filter.1 ha
      exact ⟨a, h1, by simpa using h2⟩
    · rintro ⟨a, h1, h2⟩
      exact ⟨a, List.mem_filter.2 ⟨h1, by simpa using h2⟩⟩
  cases hr : r.clinicalRisk <;>
    by_cases hred : ∃ s ∈ r.subScores, s.score = 3 <;>
      simp [checkNEWSScore, riskAlertConfig, hr, hred, hlen]

/-- C5: `checkVitals` raises at most one `vital_out_of_range` alert per
monitored parameter (at most 5 per call, one per threshold-table entry):
for a present value the critical cutoffs (value ≤ criticalLow or
≥ criticalHigh) are evaluated first and produce a single critical alert;
the warning cutoffs (value ≤ warningLow or ≥ warningHigh) are only
evaluated when no critical alert fired for that parameter, so a value
never yields both a warning and a critical alert in one call. -/
theorem checkVitals_per_parameter
    (st : AlertState) (now mrn : String) (vital : VitalSign)
    (k : String) (t : VitalThreshold)
    (_hk : (k, t) ∈ VITAL_ALERT_THRESHOLDS) :
    (checkVitals st now mrn vital).1.length ≤ 5 ∧
    (∀ a ∈ (checkVitals st now mrn vital).1, a.type = AlertType.vital_out_of_range) ∧
    (∀ v : ℚ,
      (critHit t v = true ↔
        (∃ a, t.criticalLow = some a ∧ v ≤ a) ∨ (∃ a, t.criticalHigh = some a ∧ a ≤ v)) ∧
      (warnHit t v = true ↔
        (∃ a, t.warningLow = some a ∧ v ≤ a) ∨ (∃ a, t.warningHigh = some a ∧ a ≤ v))) ∧
    (∀ (c : ℕ) (v : ℚ),
      (checkOneVital c now mrn t v).1.length ≤ 1 ∧
      (critHit t v = true →
        (checkOneVital c now mrn t v).1.map (·.severity) = [AlertSeverity.critical]) ∧
      (critHit t v = false → warnHit t v = true →
        (checkOneVital c now mrn t v).1.map (·.severity) = [AlertSeverity.warning]) ∧
      (critHit t v = false → warnHit t v = false →
        (checkOneVital c now mrn t v).1 = [])) := by
  obtain ⟨new, h1, _, _, h4, h5⟩ := checkVitals_spec st now mrn vital
  refine ⟨by rw [h1]; exact h4, by rw [h1]; exact h5, ?_, ?_⟩
  · intro v
    constructor
    · unfold critHit
      cases t.criticalLow <;> cases t.criticalHigh <;> simp
    · unfold warnHit
      cases t.warningLow <;> cases t.warningHigh <;> simp
  · intro c v
    refine ⟨?_, ?_, ?_, ?_⟩ <;> unfold checkOneVital <;> split_ifs <;> simp_all

/-- C5 witness: heart rate 40 is at the critical-low cutoff of the heart
rate entry and produces exactly one critical alert. -/
theorem checkVitals_per_parameter_witness :
    critHit ⟨some 50, some 110, some 40, some 130, "Heart Rate"⟩ 40 = true ∧
    ((checkOneVital 0 "t0" "PAH599806"
        ⟨some 50, some 110, some 40, some 130, "Heart Rate"⟩ 40).1.map (·.severity) =
      [AlertSeverity.critical]) := by
  have h := checkVitals_per_parameter clearedState "t0" "PAH599806"
    { datetime := "t0" } "hr" ⟨some 50, some 110, some 40, some 130, "Heart Rate"⟩
    (by simp [VITAL_ALERT_THRESHOLDS])
  have hc : critHit (⟨some 50, some 110, some 40, some 130, "Heart Rate"⟩ : VitalThreshold)
      40 = true := by decide
  exact ⟨hc, (h.2.2.2 0 40).2.1 hc⟩

/-- C7: with at least two scored observations (newest first) the trend is
worsening iff the newest total exceeds the previous one, improving iff it
is below it, stable iff they are equal; with zero or one observations the
trend is stable. -/
theorem newsTrend_spec (vitals : List VitalSign) :
    (∀ s0 s1 rest, vitals.map calculateNEWS2 = s0 :: s1 :: rest →
      ((newsTrend vitals = .worsening ↔ s1.totalScore < s0.totalScore) ∧
       (newsTrend vitals = .improving ↔ s0.totalScore < s1.totalScore) ∧
       (newsTrend vitals = .stable ↔ s0.totalScore = s1.totalScore))) ∧
    (vitals.length ≤ 1 → newsTrend vitals = .stable) := by
  constructor
  · intro s0 s1 rest h
    have e : newsTrend vitals =
        (if 0 < (s0.totalScore : ℤ) - (s1.totalScore : ℤ) then NewsTrend.worsening
         else if (s0.totalScore : ℤ) - (s1.totalScore : ℤ) < 0 then NewsTrend.improving
         else NewsTrend.stable) := by
      unfold newsTrend
      rw [h]
    rw [e]
    split_ifs with h1 h2 <;> refine ⟨?_, ?_, ?_⟩ <;> simp <;> omega
  · intro hlen
    cases vitals with
    | nil => rfl
    | cons a tl =>
      cases tl with
      | nil => rfl
      | cons b tl' => simp at hlen

/-- C7 witness: a newest observation scoring 3 (RR 30) after one scoring 0
is a worsening trend. -/
theorem newsTrend_spec_witness :
    newsTrend [{ datetime := "t1", rr := some 30 }, { datetime := "t0" }] = .worsening := by
  have h := (newsTrend_spec [{ datetime := "t1", rr := some 30 }, { datetime := "t0" }]).1
    (calculateNEWS2 { datetime := "t1", rr := some 30 })
    (calculateNEWS2 { datetime := "t0" }) [] rfl
  exact h.1.mpr (by decide)

lemma consciousness_zero_score : calculateSubScore "consciousness" 0 = 0 := rfl

/-- C10: an observation whose avpu field holds a string other than the
recognized labels A, C, V, P, U is mapped to numeric 0 by the AVPU map and
receives a Consciousness sub-score of 0, the same as an Alert patient. -/
theorem consciousness_unknown_label (v : VitalSign) (a : String)
    (ha : v.avpu = some a)
    (hu : a ∉ (["A", "C", "V", "P", "U"] : List String)) :
    AVPU_NUMERIC_MAP a = none ∧
    (calculateNEWS2 v).subScores.find? (fun s => s.parameter == "Consciousness") =
      some ⟨"Consciousness", SubValue.str a, 0⟩ := by
  simp only [List.mem_cons, List.not_mem_nil, or_false, not_or] at hu
  obtain ⟨h1, h2, h3, h4, h5⟩ := hu
  have hmap : AVPU_NUMERIC_MAP a = none := by
    simp [AVPU_NUMERIC_MAP, h1, h2, h3, h4, h5]
  refine ⟨hmap, ?_⟩
  obtain ⟨dt, temp, hr, rr, bp, spo2, avpu, o2⟩ := v
  simp only [VitalSign.avpu] at ha
  subst ha
  cases rr <;> cases spo2 <;> cases temp <;> cases bp <;> cases hr <;>
    simp [calculateNEWS2, hmap, consciousness_zero_score, List.find?]

/-- C10 witness: the unrecognized label `"X"` scores 0. -/
theorem consciousness_unknown_label_witness :
    AVPU_NUMERIC_MAP "X" = none ∧
    (calculateNEWS2 { datetime := "t0", avpu := some "X" }).subScores.find?
        (fun s => s.parameter == "Consciousness") =
      some ⟨"Consciousness", SubValue.str "X", 0⟩ :=
  consciousness_unknown_label { datetime := "t0", avpu := some "X" } "X" rfl (by decide)

lemma suppO2_score_one : calculateSubScore "supplementalO2" 1 = 2 := rfl

lemma suppO2_score_zero : calculateSubScore "supplementalO2" 0 = 0 := rfl

/-- C2 (amended): each of the six optional clinical fields (RR, SpO2,
temperature, systolic BP, HR, AVPU) yields exactly one sub-score when
present and none when absent; the Supplemental O2 sub-score, however, is
always produced — an absent flag is read as falsy and scored as
`"No"` → 0 rather than omitted. -/
theorem calculateNEWS2_subScores (v : VitalSign) :
    ((calculateNEWS2 v).subScores.map (·.parameter) =
      (match v.rr with | some _ => ["Respiratory Rate"] | none => []) ++
      (match v.spo2 with | some _ => ["SpO2"] | none => []) ++
      ["Supplemental O2"] ++
      (match v.temp with | some _ => ["Temperature"] | none => []) ++
      (match v.bp_sys with | some _ => ["Systolic BP"] | none => []) ++
      (match v.hr with | some _ => ["Heart Rate"] | none => []) ++
      (match v.avpu with | some _ => ["Consciousness"] | none => [])) ∧
    ((calculateNEWS2 v).subScores.filter (fun s => s.parameter == "Supplemental O2") =
      [⟨"Supplemental O2",
        SubValue.str (if v.supplementalO2.getD false then "Yes" else "No"),
        if v.supplementalO2.getD false then 2 else 0⟩]) := by
  obtain ⟨dt, temp, hr, rr, bp, spo2, avpu, o2⟩ := v
  constructor
  · cases rr <;> cases spo2 <;> cases temp <;> cases bp <;> cases hr <;> cases avpu <;>
      simp [calculateNEWS2]
  · cases hb : (Option.getD o2 false) <;>
      cases rr <;> cases spo2 <;> cases temp <;> cases bp <;> cases hr <;> cases avpu <;>
        simp [calculateNEWS2, hb, suppO2_score_one, suppO2_score_zero]

/-- C2 counterexample: an observation with every optional field absent
still yields one sub-score — `Supplemental O2` scored `"No"` → 0 — so an
absent supplemental-oxygen flag does not lead to an omitted sub-score as
the claim states. -/
theorem calculateNEWS2_absent_o2_cex :
    (VitalSign.supplementalO2 { datetime := "" } = none) ∧
    (calculateNEWS2 { datetime := "" }).subScores =
      [⟨"Supplemental O2", SubValue.str "No", 0⟩] :=
  ⟨rfl, rfl⟩

lemma div10_le {a k : ℤ} : ((a:ℚ)/10 ≤ (k:ℚ)/10) ↔ a ≤ k := by
  rw [div_le_div_iff_of_pos_right (by norm_num : (0:ℚ) < 10)]
  exact_mod_cast Iff.rfl

lemma tempScore_grid (t : ℚ) (k : ℤ) (hg : t = (k:ℚ)/10) :
    calculateSubScore "temperature" t =
      if t ≤ 35 then 3 else if t ≤ 36 then 1 else if t ≤ 38 then 0
      else if t ≤ 39 then 1 else 2 := by
  subst hg
  have hT : NEWS2_THRESHOLDS "temperature" = some temperatureThresholds := rfl
  have e35 : (35:ℚ) = ((350:ℤ):ℚ)/10 := by norm_num
  have e351 : (351/10:ℚ) = ((351:ℤ):ℚ)/10 := by norm_num
  have e36 : (36:ℚ) = ((360:ℤ):ℚ)/10 := by norm_num
  have e361 : (361/10:ℚ) = ((361:ℤ):ℚ)/10 := by norm_num
  have e38 : (38:ℚ) = ((380:ℤ):ℚ)/10 := by norm_num
  have e381 : (381/10:ℚ) = ((381:ℤ):ℚ)/10 := by norm_num
  have e39 : (39:ℚ) = ((390:ℤ):ℚ)/10 := by norm_num
  have e391 : (391/10:ℚ) = ((391:ℤ):ℚ)/10 := by norm_num
  by_cases h1 : k ≤ 350
  · have ht : (k:ℚ)/10 ≤ 35 := by rw [e35]; exact div10_le.mpr h1
    simp [calculateSubScore, hT, temperatureThresholds, List.find?, bandMem,
      lowOk, highOk, ht]
  · have ht : ¬ ((k:ℚ)/10 ≤ 35) := by rw [e35, div10_le]; omega
    have ht1 : (351/10:ℚ) ≤ (k:ℚ)/10 := by rw [e351]; exact div10_le.mpr (by omega)
    by_cases h2 : k ≤ 360
    · have ht2 : (k:ℚ)/10 ≤ 36 := by rw [e36]; exact div10_le.mpr h2
      simp [calculateSubScore, hT, temperatureThresholds, List.find?, bandMem,
        lowOk, highOk, ht, ht1, ht2]
    · have ht2 : ¬ ((k:ℚ)/10 ≤ 36) := by rw [e36, div10_le]; omega
      have ht3 : (361/10:ℚ) ≤ (k:ℚ)/10 := by rw [e361]; exact div10_le.mpr (by omega)
      by_cases h3 : k ≤ 380
      · have ht4 : (k:ℚ)/10 ≤ 38 := by rw [e38]; exact div10_le.mpr h3
        simp [calculateSubScore, hT, temperatureThresholds, List.find?, bandMem,
          lowOk, highOk, ht, ht1, ht2, ht3, ht4]
      · have ht4 : ¬ ((k:ℚ)/10 ≤ 38) := by rw [e38, div10_le]; omega
        have ht5 : (381/10:ℚ) ≤ (k:ℚ)/10 := by rw [e381]; exact div10_le.mpr (by omega)
        by_cases h4 : k ≤ 390
        · have ht6 : (k:ℚ)/10 ≤ 39 := by rw [e39]; exact div10_le.mpr h4
          simp [calculateSubScore, hT, temperatureThresholds, List.find?, bandMem,
            lowOk, highOk, ht, ht2, ht4, ht5, ht6]
        · have ht6 : ¬ ((k:ℚ)/10 ≤ 39) := by rw [e39, div10_le]; omega
          have ht7 : (391/10:ℚ) ≤ (k:ℚ)/10 := by rw [e391]; exact div10_le.mpr (by omega)
          simp [calculateSubScore, hT, temperatureThresholds, List.find?, bandMem,
            lowOk, highOk, ht, ht2, ht4, ht6, ht7]

/-- C3 (amended): for a present temperature on the charted tenth-of-a-degree
grid (t = k/10 °C), the Temperature sub-score is 3 for t ≤ 35.0, 1 for
35.0 < t ≤ 36.0, 0 for 36.0 < t ≤ 38.0, 1 for 38.0 < t ≤ 39.0 and 2 for
t > 39.0; off-grid real values falling between two adjacent bands (e.g.
35.05) are instead scored 0 by the band lookup, so the bands do not cover
every real temperature. -/
theorem temperature_subscore (v : VitalSign) (t : ℚ) (k : ℤ)
    (hp : v.temp = some t) (hg : t = (k:ℚ)/10) :
    (calculateNEWS2 v).subScores.find? (fun s => s.parameter == "Temperature") =
      some ⟨"Temperature", SubValue.num t,
        if t ≤ 35 then 3 else if t ≤ 36 then 1 else if t ≤ 38 then 0
        else if t ≤ 39 then 1 else 2⟩ := by
  have hscore := tempScore_grid t k hg
  obtain ⟨dt, temp, hr, rr, bp, spo2, avpu, o2⟩ := v
  simp only at hp
  subst hp
  cases rr <;> cases spo2 <;>
    simp [calculateNEWS2, List.find?, hscore]

/-- C3 witness: temperature 38.5 = 77/2 (on the grid, k = 385) scores 1. -/
theorem temperature_subscore_witness :
    (calculateNEWS2 { datetime := "", temp := some (77/2) }).subScores.find?
        (fun s => s.parameter == "Temperature") =
      some ⟨"Temperature", SubValue.num (77/2), 1⟩ := by
  have h := temperature_subscore { datetime := "", temp := some (77/2) }
    (77/2) 385 rfl (by norm_num)
  norm_num at h
  exact h

/-- C3 counterexample: 35.05 °C satisfies 35.0 < t ≤ 36.0, where the claim
requires a sub-score of 1, but the code scores it 0 (it falls in the gap
between the bands ending at 35.0 and starting at 35.1). -/
theorem temperature_subscore_cex :
    ((35:ℚ) < 701/20 ∧ (701/20:ℚ) ≤ 36) ∧
    (calculateNEWS2 { datetime := "", temp := some (701/20) }).subScores.find?
        (fun s => s.parameter == "Temperature") =
      some ⟨"Temperature", SubValue.num (701/20), 0⟩ := by
  refine ⟨⟨by norm_num, by norm_num⟩, ?_⟩
  norm_num [calculateNEWS2, calculateSubScore,
    show NEWS2_THRESHOLDS "temperature" = some temperatureThresholds from rfl,
    show (("Supplemental O2" == "Temperature") = false) from rfl,
    show (("Temperature" == "Temperature") = true) from rfl,
    temperatureThresholds, List.find?, bandMem, lowOk, highOk, suppO2_score_zero]

/-- C4 (amended): each continuous parameter's band list partitions its
charting grid — every integer value lies in exactly one band of the
respiratory-rate, SpO2 (all three scales), systolic-BP and heart-rate
tables, and every tenth-of-a-degree value k/10 lies in exactly one
temperature band; over the full real line the bands leave gaps between
adjacent bands (e.g. respiratory rate 8.5 lies in none), so they
partition the grid, not the reals. -/
theorem news2Thresholds_partition_grid (k : ℤ) :
    rrThresholds.bands.countP (fun b => bandMem (k:ℚ) b) = 1 ∧
    spo2Scale1Thresholds.bands.countP (fun b => bandMem (k:ℚ) b) = 1 ∧
    spo2Scale2OnO2Thresholds.bands.countP (fun b => bandMem (k:ℚ) b) = 1 ∧
    spo2Scale2OnAirThresholds.bands.countP (fun b => bandMem (k:ℚ) b) = 1 ∧
    systolicBPThresholds.bands.countP (fun b => bandMem (k:ℚ) b) = 1 ∧
    heartRateThresholds.bands.countP (fun b => bandMem (k:ℚ) b) = 1 ∧
    temperatureThresholds.bands.countP (fun b => bandMem ((k:ℚ)/10) b) = 1 := by
  refine ⟨?_, ?_, ?_, ?_, ?_, ?_, ?_⟩
  · simp only [rrThresholds, bandMem, lowOk, highOk, List.countP_cons, List.countP_nil,
      Bool.and_eq_true, Bool.true_and, Bool.and_true, decide_eq_true_eq]
    norm_cast
    split_ifs <;> omega
  · simp only [spo2Scale1Thresholds, bandMem, lowOk, highOk, List.countP_cons,
      List.countP_nil, Bool.and_eq_true, Bool.true_and, Bool.and_true, decide_eq_true_eq]
    norm_cast
    split_ifs <;> omega
  · simp only [spo2Scale2OnO2Thresholds, bandMem, lowOk, highOk, List.countP_cons,
      List.countP_nil, Bool.and_eq_true, Bool.true_and, Bool.and_true, decide_eq_true_eq]
    norm_cast
    split_ifs <;> omega
  · simp only [spo2Scale2OnAirThresholds, bandMem, lowOk, highOk, List.countP_cons,
      List.countP_nil, Bool.and_eq_true, Bool.true_and, Bool.and_true, decide_eq_true_eq]
    norm_cast
    split_ifs <;> omega
  · simp only [systolicBPThresholds, bandMem, lowOk, highOk, List.countP_cons,
      List.countP_nil, Bool.and_eq_true, Bool.true_and, Bool.and_true, decide_eq_true_eq]
    norm_cast
    split_ifs <;> omega
  · simp only [heartRateThresholds, bandMem, lowOk, highOk, List.countP_cons,
      List.countP_nil, Bool.and_eq_true, Bool.true_and, Bool.and_true, decide_eq_true_eq]
    norm_cast
    split_ifs <;> omega
  · simp only [temperatureThresholds, bandMem, lowOk, highOk, List.countP_cons,
      List.countP_nil, Bool.and_eq_true, Bool.true_and, Bool.and_true, decide_eq_true_eq,
      show (35:ℚ) = 350/10 from by norm_num, show (36:ℚ) = 360/10 from by norm_num,
      show (38:ℚ) = 380/10 from by norm_num, show (39:ℚ) = 390/10 from by norm_num,
      div_le_div_iff_of_pos_right (show (0:ℚ) < 10 from by norm_num)]
    norm_cast
    split_ifs <;> omega

/-- C4 counterexample: the real value 8.5 (respiratory rate) lies in none
of the respiratory-rate bands, so the band list does not partition the
real line as claimed. -/
theorem news2Thresholds_gap_cex :
    rrThresholds.bands.countP (fun b => bandMem (17/2 : ℚ) b) = 0 := by
  norm_num [rrThresholds, bandMem, lowOk, highOk, List.countP_cons, List.countP_nil,
    Bool.and_eq_true, decide_eq_true_eq]

end SimCerner
